import Mathlib

/-!
Shallow embedding of the Torque-Drift play-to-earn Anchor program
(`src/programs/src/lib.rs`) and verification of its specification claims.

Modelling conventions:
* `Pubkey` is modelled as `Nat`; the ed25519 program identity is a fixed
  distinguished value.
* `u64` fields are modelled as `Nat` together with explicit `U64MAX` bounds
  wherever the source uses `checked_add` (overflow maps to `MathOverflow`,
  exactly as in the source).
* `i64` timestamps are modelled as `Int`; `(now - timestamp).abs()` becomes
  `(now - timestamp).natAbs`.
* Each instruction handler is a pure function from its account state to
  `StepResult σ`: `ok s'` is a successful run ending in state `s'`, and
  `err e s'` is a failed run, where `s'` is the in-memory account state at
  the moment the error was raised (the handler may have mutated accounts
  before a later `require!` fails, as `claim_tokens` does with its
  daily/hourly window resets).  The Solana runtime discards all account
  writes of a failed instruction; `commit` models that rollback: it keeps
  the new state on `ok` and restores the pre-state on `err`.
* The trusted external collaborators (the SPL token `mint_to`/`burn` CPIs,
  event emission, rent/fee mechanics) are assumed to succeed, as the spec
  places them out of scope.
* Anchor account-validation constraints are modelled where a claim depends
  on them: the `init` constraint of `RequestAdminAction` (which fails when
  the pending-action account already exists, surfaced as the runtime error
  `AccountAlreadyInUse`) and the `!pending_action.executed` constraint of
  `ExecuteAdminAction`.  Instruction-sysvar load failures are surfaced as
  the runtime error `SysvarLoadFailed`.
-/

abbrev Pubkey := Nat

/-- `u64::MAX`: the largest value a `u64` field can hold. -/
def U64MAX : Nat := 2 ^ 64 - 1

/-- The error enumeration of the program (`ErrorCode` in the source), extended
with two runtime-level errors that the host environment raises before or
inside a handler: `SysvarLoadFailed` for a failed instruction-sysvar load and
`AccountAlreadyInUse` for an `init` constraint hitting an existing account. -/
inductive ErrorCode where
  | InvalidSignature
  | ExpiredSignature
  | Unauthorized
  | InvalidPaymentToken
  | InvalidPaymentAmount
  | PaymentTokenNotConfigured
  | InsufficientFunds
  | SystemPaused
  | InvalidInput
  | MathOverflow
  | SysvarLoadFailed
  | AccountAlreadyInUse
  deriving DecidableEq, Repr

/-- `ConfigAccount` from the source. -/
structure ConfigAccount where
  payment_token_mint : Pubkey
  admin : Pubkey
  emergency_paused : Bool
  max_claim_per_user : Nat
  total_supply_limit : Nat
  total_minted : Nat
  deriving DecidableEq, Repr

/-- `UserClaimAccount` from the source. -/
structure UserClaimAccount where
  user : Pubkey
  total_claimed : Nat
  last_claim_timestamp : Int
  daily_claimed : Nat
  daily_reset_timestamp : Int
  hourly_claimed : Nat
  hourly_reset_timestamp : Int
  nonce : Nat
  is_blacklisted : Bool
  deriving DecidableEq, Repr

/-- `BlacklistAccount` from the source. -/
structure BlacklistAccount where
  admin : Pubkey
  blacklisted_users : List Pubkey
  deriving DecidableEq, Repr

/-- `AdminActionType` from the source. -/
inductive AdminActionType where
  | ChangeAdmin
  | ChangeToken
  | EmergencyWithdraw
  deriving DecidableEq, Repr

/-- `PendingAdminAction` from the source. -/
structure PendingAdminAction where
  action_type : AdminActionType
  new_value : Pubkey
  requested_at : Int
  executed : Bool
  deriving DecidableEq, Repr

/-- Outcome of one instruction run over account state `σ`.  In `err e s`,
`s` is the in-memory account state at the time the error was raised; the
runtime never persists it (see `commit`). -/
inductive StepResult (σ : Type) where
  | ok : σ → StepResult σ
  | err : ErrorCode → σ → StepResult σ
  deriving DecidableEq, Repr

/-- The Solana runtime's transaction semantics: on success the new account
state is persisted, on any error every account write of the instruction is
rolled back and the pre-state is kept. -/
def commit {σ : Type} (pre : σ) : StepResult σ → σ
  | .ok s => s
  | .err _ _ => pre

/-- Whether a run succeeded. -/
def StepResult.isOk {σ : Type} : StepResult σ → Bool
  | .ok _ => true
  | .err _ _ => false

/-- Abstraction of the canonical signed JSON message
`{"wallet":...,"amount":...,"timestamp":...,"action":...}` built by
`claim_tokens` / `burn_tokens` (the byte encoding is injective on these
fields, so the record abstracts the byte string). -/
structure SignedMessage where
  wallet : Pubkey
  amount : Nat
  timestamp : Int
  action : String
  deriving DecidableEq, Repr

/-- The canonical message for a claim (`action` tag `"claim"`). -/
def claim_message (claimer : Pubkey) (amount : Nat) (timestamp : Int) :
    SignedMessage :=
  { wallet := claimer, amount := amount, timestamp := timestamp,
    action := "claim" }

/-- The canonical message for a burn (`action` tag `"burn"`). -/
def burn_message (payer : Pubkey) (amount : Nat) (timestamp : Int) :
    SignedMessage :=
  { wallet := payer, amount := amount, timestamp := timestamp,
    action := "burn" }

/-- The distinguished identity of the host's native ed25519
signature-verification program (`ed25519_program::ID`). -/
def ED25519_PROGRAM_ID : Pubkey := 255

/-- The instructions sysvar of the transaction being executed:
the index of the currently executing instruction and the program identity of
every instruction in the transaction.  In any real transaction
`currentIndex < instructionProgramIds.length`. -/
structure InstructionsSysvar where
  currentIndex : Nat
  instructionProgramIds : List Pubkey
  deriving DecidableEq, Repr

/-- `verify_signature` from the source (lines 10-40): loads the current
instruction index (a `u16`), requires it to be positive, computes
`ed25519_ix_index = (instruction_sysvar - 1) as u8` — the `as u8` cast
truncates the position mod 256 — loads the instruction at that position and
requires its program identity to be the ed25519 program.  The `_message`,
`_signature` and `_public_key` parameters are unused, exactly as in the
source. -/
def verify_signature (sv : InstructionsSysvar) (_message : SignedMessage)
    (_signature : List Nat) (_public_key : Pubkey) :
    Except ErrorCode Unit :=
  let instruction_sysvar := sv.currentIndex
  if instruction_sysvar > 0 then
    let ed25519_ix_index := (instruction_sysvar - 1) % 256
    match sv.instructionProgramIds.get? ed25519_ix_index with
    | none => .error .SysvarLoadFailed
    | some pid =>
        if pid = ED25519_PROGRAM_ID then .ok () else .error .InvalidSignature
  else .error .InvalidSignature

/-- The user-claim record written by the `data_is_empty` initialization block
of `claim_tokens` (source lines 374-384). -/
def fresh_user_claim (claimer : Pubkey) (now : Int) : UserClaimAccount :=
  { user := claimer, total_claimed := 0, last_claim_timestamp := 0,
    daily_claimed := 0, daily_reset_timestamp := now,
    hourly_claimed := 0, hourly_reset_timestamp := now,
    nonce := 0, is_blacklisted := false }

/-- An all-zero `UserClaimAccount`: how Anchor's zero-initialized fresh
account data deserializes for a first-time claimant. -/
def zero_user_claim : UserClaimAccount :=
  { user := 0, total_claimed := 0, last_claim_timestamp := 0,
    daily_claimed := 0, daily_reset_timestamp := 0,
    hourly_claimed := 0, hourly_reset_timestamp := 0,
    nonce := 0, is_blacklisted := false }

/-- The record-preparation phase of `claim_tokens` (source lines 371-396):
initialize the record if the account data was empty, then apply the fixed
daily (86400 s) and hourly (3600 s) window resets. -/
def after_windows (claimer : Pubkey) (now : Int) (dataEmpty : Bool)
    (uc : UserClaimAccount) : UserClaimAccount :=
  let uc0 := if dataEmpty then fresh_user_claim claimer now else uc
  let uc1 :=
    if now - uc0.daily_reset_timestamp ≥ 24 * 60 * 60 then
      { uc0 with daily_claimed := 0, daily_reset_timestamp := now }
    else uc0
  if now - uc1.hourly_reset_timestamp ≥ 60 * 60 then
    { uc1 with hourly_claimed := 0, hourly_reset_timestamp := now }
  else uc1

/-- The per-user limit checks and state update of `claim_tokens` (source
lines 398-418, "Verificar limites" onwards), applied to the record `uc1`
produced by `after_windows`: the hourly checked-add and hourly-quota check
(`max_claim_per_user / 24`), the daily checked-add and daily-quota check,
then the checked updates of `total_claimed` and `nonce`, the counter
assignments, and the global `total_minted` update. -/
def claim_limits_step (amount : Nat) (now : Int) (cfg : ConfigAccount)
    (uc1 : UserClaimAccount) : StepResult (ConfigAccount × UserClaimAccount) :=
  if U64MAX < uc1.hourly_claimed + amount then .err .MathOverflow (cfg, uc1)
  else if cfg.max_claim_per_user / 24 < uc1.hourly_claimed + amount then
    .err .InvalidPaymentAmount (cfg, uc1)
  else if U64MAX < uc1.daily_claimed + amount then .err .MathOverflow (cfg, uc1)
  else if cfg.max_claim_per_user < uc1.daily_claimed + amount then
    .err .InvalidPaymentAmount (cfg, uc1)
  else if U64MAX < uc1.total_claimed + amount then
    .err .MathOverflow (cfg, uc1)
  else if U64MAX < uc1.nonce + 1 then
    .err .MathOverflow
      (cfg, { uc1 with total_claimed := uc1.total_claimed + amount,
                       daily_claimed := uc1.daily_claimed + amount,
                       hourly_claimed := uc1.hourly_claimed + amount,
                       last_claim_timestamp := now })
  else
    .ok ({ cfg with total_minted := cfg.total_minted + amount },
         { uc1 with total_claimed := uc1.total_claimed + amount,
                    daily_claimed := uc1.daily_claimed + amount,
                    hourly_claimed := uc1.hourly_claimed + amount,
                    last_claim_timestamp := now,
                    nonce := uc1.nonce + 1 })

/-- `claim_tokens` from the source (lines 325-446), handler logic.
Parameters: `claimer` and `backend` are the signer and the backend-authority
account, `amount`/`timestamp`/`signature` the instruction arguments, `sv`
the instructions sysvar, `now` the clock reading, `dataEmpty` the result of
`user_claim_account.to_account_info().data_is_empty()`, and `(cfg, uc)` the
deserialized config and user-claim accounts.  The SPL `mint_to` CPI is an
out-of-scope collaborator assumed to succeed. -/
def claim_tokens (claimer backend : Pubkey) (amount : Nat) (timestamp : Int)
    (signature : List Nat) (sv : InstructionsSysvar) (now : Int)
    (dataEmpty : Bool) (cfg : ConfigAccount) (uc : UserClaimAccount) :
    StepResult (ConfigAccount × UserClaimAccount) :=
  if cfg.emergency_paused then .err .SystemPaused (cfg, uc)
  else if amount = 0 then .err .InvalidPaymentAmount (cfg, uc)
  else if uc.is_blacklisted then .err .Unauthorized (cfg, uc)
  else if U64MAX < cfg.total_minted + amount then .err .MathOverflow (cfg, uc)
  else if cfg.total_supply_limit < cfg.total_minted + amount then
    .err .InvalidPaymentAmount (cfg, uc)
  else
    match verify_signature sv (claim_message claimer amount timestamp)
        signature backend with
    | .error e => .err e (cfg, uc)
    | .ok _ =>
      if 300 < (now - timestamp).natAbs then .err .ExpiredSignature (cfg, uc)
      else claim_limits_step amount now cfg (after_windows claimer now dataEmpty uc)

/-- `burn_tokens` from the source (lines 190-263), handler logic.
`payer_balance` is the payer's token-account balance; the SPL `burn` CPI is
assumed to succeed.  The config is never written. -/
def burn_tokens (payer backend : Pubkey) (amount : Nat) (timestamp : Int)
    (signature : List Nat) (description : String) (sv : InstructionsSysvar)
    (now : Int) (payer_balance : Nat) (cfg : ConfigAccount) :
    StepResult ConfigAccount :=
  if cfg.emergency_paused then .err .SystemPaused cfg
  else if amount = 0 then .err .InvalidPaymentAmount cfg
  else if description = "" then .err .InvalidInput cfg
  else
    match verify_signature sv (burn_message payer amount timestamp)
        signature backend with
    | .error e => .err e cfg
    | .ok _ =>
      if 300 < (now - timestamp).natAbs then .err .ExpiredSignature cfg
      else if payer_balance < amount then .err .InsufficientFunds cfg
      else .ok cfg

/-- `mint_tokens` from the source (lines 265-323), handler logic.
`token_mint` is the mint account's identity; the SPL `mint_to` CPI is assumed
to succeed.  The config is never written (administrator mints bypass the
supply-cap bookkeeping). -/
def mint_tokens (admin : Pubkey) (amount : Nat) (_recipient : Pubkey)
    (token_mint : Pubkey) (cfg : ConfigAccount) : StepResult ConfigAccount :=
  if cfg.emergency_paused then .err .SystemPaused cfg
  else if admin ≠ cfg.admin then .err .Unauthorized cfg
  else if amount = 0 then .err .InvalidPaymentAmount cfg
  else if token_mint ≠ cfg.payment_token_mint then .err .InvalidPaymentToken cfg
  else .ok cfg

/-- `add_to_blacklist` from the source (lines 449-481).  `uc = none` models a
user-claim account whose data is empty (the `data_is_empty()` branch). -/
def add_to_blacklist (admin user : Pubkey) (cfg : ConfigAccount)
    (bl : BlacklistAccount) (uc : Option UserClaimAccount) :
    StepResult (BlacklistAccount × Option UserClaimAccount) :=
  if admin ≠ cfg.admin then .err .Unauthorized (bl, uc)
  else if bl.blacklisted_users.contains user then .ok (bl, uc)
  else
    .ok ({ bl with blacklisted_users := bl.blacklisted_users ++ [user] },
         match uc with
         | some u => some { u with is_blacklisted := true }
         | none => none)

/-- `remove_from_blacklist` from the source (lines 483-508).  Removes the
first occurrence of `user` (as `position` + `remove(index)` does) and clears
the mirrored flag if the user record's data is non-empty. -/
def remove_from_blacklist (admin user : Pubkey) (cfg : ConfigAccount)
    (bl : BlacklistAccount) (uc : Option UserClaimAccount) :
    StepResult (BlacklistAccount × Option UserClaimAccount) :=
  if admin ≠ cfg.admin then .err .Unauthorized (bl, uc)
  else if bl.blacklisted_users.contains user then
    .ok ({ bl with blacklisted_users := bl.blacklisted_users.erase user },
         match uc with
         | some u => some { u with is_blacklisted := false }
         | none => none)
  else .ok (bl, uc)

/-- `request_admin_action` from the source (lines 511-538) together with the
`init` account constraint of `RequestAdminAction` (lines 773-780): `init`
fails when the pending-action account already exists, before the handler
runs; otherwise the handler requires the configured administrator and writes
the fresh pending action. -/
def request_admin_action (admin : Pubkey) (action_type : AdminActionType)
    (new_value : Pubkey) (now : Int) (cfg : ConfigAccount)
    (slot : Option PendingAdminAction) :
    StepResult (Option PendingAdminAction) :=
  match slot with
  | some pa => .err .AccountAlreadyInUse (some pa)
  | none =>
    if admin ≠ cfg.admin then .err .Unauthorized none
    else
      .ok (some { action_type := action_type, new_value := new_value,
                  requested_at := now, executed := false })

/-- The effect of an admin action on the config (the `match` of
`execute_admin_action`, source lines 560-588): `ChangeAdmin` replaces the
administrator, `ChangeToken` the accepted payment token, and
`EmergencyWithdraw` changes nothing. -/
def apply_admin_action (pa : PendingAdminAction) (cfg : ConfigAccount) :
    ConfigAccount :=
  match pa.action_type with
  | .ChangeAdmin => { cfg with admin := pa.new_value }
  | .ChangeToken => { cfg with payment_token_mint := pa.new_value }
  | .EmergencyWithdraw => cfg

/-- `execute_admin_action` from the source (lines 541-594) together with the
`!pending_action.executed` account constraint of `ExecuteAdminAction`
(line 795), which raises `InvalidInput` before the handler runs.  The handler
requires the configured administrator, re-checks `executed`, enforces the
86400-second delay, applies the action and marks it executed. -/
def execute_admin_action (admin : Pubkey) (now : Int) (cfg : ConfigAccount)
    (pa : PendingAdminAction) :
    StepResult (ConfigAccount × PendingAdminAction) :=
  if pa.executed then .err .InvalidInput (cfg, pa)
  else if admin ≠ cfg.admin then .err .Unauthorized (cfg, pa)
  else if pa.executed then .err .InvalidInput (cfg, pa)
  else if now - pa.requested_at < 24 * 60 * 60 then
    .err .InvalidInput (cfg, pa)
  else .ok (apply_admin_action pa cfg, { pa with executed := true })

/-- `emergency_pause` from the source (lines 597-614). -/
def emergency_pause (admin : Pubkey) (_reason : String)
    (cfg : ConfigAccount) : StepResult ConfigAccount :=
  if admin ≠ cfg.admin then .err .Unauthorized cfg
  else .ok { cfg with emergency_paused := true }

/-! ## Concrete sample states (used by witnesses and counterexamples) -/

/-- A sysvar whose preceding instruction is the ed25519 program. -/
def exSysvarOk : InstructionsSysvar :=
  { currentIndex := 1, instructionProgramIds := [ED25519_PROGRAM_ID, 7] }

/-- A sysvar for an instruction at position 0 (no preceding instruction). -/
def exSysvarBad : InstructionsSysvar :=
  { currentIndex := 0, instructionProgramIds := [7] }

/-- A sysvar at instruction position 257 whose instruction 256 (= position
minus one) is the ed25519 program while instruction 0 (= (257 − 1) mod 256,
the position the truncating `as u8` cast actually loads) is not. -/
def exSysvarWrap : InstructionsSysvar :=
  { currentIndex := 257,
    instructionProgramIds :=
      7 :: (List.replicate 255 0 ++ [ED25519_PROGRAM_ID, 0]) }

/-- A running configuration: unpaused, daily cap 2400, supply cap 1000000. -/
def exConfig : ConfigAccount :=
  { payment_token_mint := 10, admin := 1, emergency_paused := false,
    max_claim_per_user := 2400, total_supply_limit := 1000000,
    total_minted := 0 }

/-- A user record with stale windows: last reset 100000 seconds before
`exNow`, so both the daily and hourly windows are due for a reset. -/
def exUserStale : UserClaimAccount :=
  { user := 5, total_claimed := 700, last_claim_timestamp := 900000,
    daily_claimed := 700, daily_reset_timestamp := 900000,
    hourly_claimed := 90, hourly_reset_timestamp := 900000,
    nonce := 7, is_blacklisted := false }

/-- The clock reading used by the concrete scenarios. -/
def exNow : Int := 1000000

/-- A pending admin action requested at time 0 and not yet executed. -/
def exPending : PendingAdminAction :=
  { action_type := .ChangeAdmin, new_value := 2, requested_at := 0,
    executed := false }

/-- `exConfig` close to its supply cap: limit 1000, 999 already minted. -/
def exConfigNearCap : ConfigAccount :=
  { exConfig with total_supply_limit := 1000, total_minted := 999 }

/-- The record `exUserStale` ends up in after a successful claim of 1 at
`exNow` (both windows reset, counters restarted at 1, nonce bumped). -/
def exUserAfterNearCap : UserClaimAccount :=
  { user := 5, total_claimed := 701, last_claim_timestamp := exNow,
    daily_claimed := 1, daily_reset_timestamp := exNow,
    hourly_claimed := 1, hourly_reset_timestamp := exNow,
    nonce := 8, is_blacklisted := false }

/-- A user record whose hourly counter sits at `u64::MAX` inside a live
hourly window (both windows started at `exNow`). -/
def exUserHourlyMax : UserClaimAccount :=
  { user := 5, total_claimed := 0, last_claim_timestamp := exNow,
    daily_claimed := 0, daily_reset_timestamp := exNow,
    hourly_claimed := U64MAX, hourly_reset_timestamp := exNow,
    nonce := 0, is_blacklisted := false }

/-- A user record that has exhausted the hourly quota of `exConfig`
(`2400 / 24 = 100`) inside a live hourly window. -/
def exUserHourlyFull : UserClaimAccount :=
  { user := 5, total_claimed := 100, last_claim_timestamp := exNow,
    daily_claimed := 100, daily_reset_timestamp := exNow,
    hourly_claimed := 100, hourly_reset_timestamp := exNow,
    nonce := 1, is_blacklisted := false }

/-- `exUserStale` after both window resets fire at `exNow` (the in-memory
state of a claim at `exNow` just before the limit checks). -/
def exUserStaleReset : UserClaimAccount :=
  { user := 5, total_claimed := 700, last_claim_timestamp := 900000,
    daily_claimed := 0, daily_reset_timestamp := exNow,
    hourly_claimed := 0, hourly_reset_timestamp := exNow,
    nonce := 7, is_blacklisted := false }

/-- `exConfig` with the emergency pause engaged. -/
def exConfigPaused : ConfigAccount := { exConfig with emergency_paused := true }

/-- `exUserStale` with the mirrored blacklist flag set. -/
def exUserBlacklisted : UserClaimAccount :=
  { exUserStale with is_blacklisted := true }

/-- The committed registry/record state after one `add_to_blacklist` call
(runtime rollback applied to the run's outcome). -/
def add_to_blacklist_run (admin user : Pubkey) (cfg : ConfigAccount)
    (s : BlacklistAccount × Option UserClaimAccount) :
    BlacklistAccount × Option UserClaimAccount :=
  commit s (add_to_blacklist admin user cfg s.1 s.2)

/-- The committed registry/record state after one `remove_from_blacklist`
call (runtime rollback applied to the run's outcome). -/
def remove_from_blacklist_run (admin user : Pubkey) (cfg : ConfigAccount)
    (s : BlacklistAccount × Option UserClaimAccount) :
    BlacklistAccount × Option UserClaimAccount :=
  commit s (remove_from_blacklist admin user cfg s.1 s.2)

/-- A sample registry containing users 5 and 6. -/
def exBlacklist : BlacklistAccount :=
  { admin := 1, blacklisted_users := [5, 6] }

/-- `exConfig` with `max_claim_per_user = 23`, so the derived hourly quota
`23 / 24` truncates to zero. -/
def exConfigTinyMax : ConfigAccount :=
  { exConfig with max_claim_per_user := 23 }

/-! ## Helper lemmas -/

/-- Rollback: a failed run leaves the committed state at the pre-state. -/
theorem commit_of_err {σ : Type} {pre s : σ} {e : ErrorCode}
    {r : StepResult σ} (h : r = .err e s) : commit pre r = pre := by
  subst h; rfl

/-- Success characterization of the limit/update phase of `claim_tokens`. -/
theorem claim_limits_step_ok_elim {amount : Nat} {now : Int}
    {cfg cfg' : ConfigAccount} {uc1 uc' : UserClaimAccount}
    (h : claim_limits_step amount now cfg uc1 = .ok (cfg', uc')) :
    uc1.hourly_claimed + amount ≤ cfg.max_claim_per_user / 24 ∧
    uc1.daily_claimed + amount ≤ cfg.max_claim_per_user ∧
    cfg' = { cfg with total_minted := cfg.total_minted + amount } ∧
    uc' = { uc1 with total_claimed := uc1.total_claimed + amount,
                     daily_claimed := uc1.daily_claimed + amount,
                     hourly_claimed := uc1.hourly_claimed + amount,
                     last_claim_timestamp := now,
                     nonce := uc1.nonce + 1 } := by
  unfold claim_limits_step at h
  split at h
  · exact StepResult.noConfusion h
  rename_i h1
  split at h
  · exact StepResult.noConfusion h
  rename_i h2
  split at h
  · exact StepResult.noConfusion h
  rename_i h3
  split at h
  · exact StepResult.noConfusion h
  rename_i h4
  split at h
  · exact StepResult.noConfusion h
  rename_i h5
  split at h
  · exact StepResult.noConfusion h
  rename_i h6
  injection h with h
  injection h with hc hu
  exact ⟨Nat.not_lt.mp h2, Nat.not_lt.mp h4, hc.symm, hu.symm⟩

/-- Success characterization of `claim_tokens`: a successful run implies all
the guard conditions held and the outcome is that of the limit/update phase
on the window-adjusted record. -/
theorem claim_tokens_ok_elim
    {claimer backend : Pubkey} {amount : Nat} {timestamp : Int}
    {signature : List Nat} {sv : InstructionsSysvar} {now : Int}
    {dataEmpty : Bool} {cfg : ConfigAccount} {uc : UserClaimAccount}
    {out : ConfigAccount × UserClaimAccount}
    (h : claim_tokens claimer backend amount timestamp signature sv now
      dataEmpty cfg uc = .ok out) :
    cfg.emergency_paused = false ∧ amount ≠ 0 ∧ uc.is_blacklisted = false ∧
    cfg.total_minted + amount ≤ U64MAX ∧
    cfg.total_minted + amount ≤ cfg.total_supply_limit ∧
    verify_signature sv (claim_message claimer amount timestamp) signature
      backend = .ok () ∧
    (now - timestamp).natAbs ≤ 300 ∧
    claim_limits_step amount now cfg (after_windows claimer now dataEmpty uc)
      = .ok out := by
  unfold claim_tokens at h
  split at h
  · exact StepResult.noConfusion h
  rename_i hpause
  split at h
  · exact StepResult.noConfusion h
  rename_i hamount
  split at h
  · exact StepResult.noConfusion h
  rename_i hblack
  split at h
  · exact StepResult.noConfusion h
  rename_i hnov
  split at h
  · exact StepResult.noConfusion h
  rename_i hsupply
  split at h
  · exact StepResult.noConfusion h
  rename_i u hverify
  split at h
  · exact StepResult.noConfusion h
  rename_i hfresh
  simp only [Bool.not_eq_true] at hpause hblack
  cases u
  exact ⟨hpause, hamount, hblack, Nat.not_lt.mp hnov, Nat.not_lt.mp hsupply,
    hverify, Nat.not_lt.mp hfresh, h⟩

/-- When every guard before the limit phase passes, `claim_tokens` reduces to
the limit/update phase on the window-adjusted record. -/
theorem claim_tokens_checks_pass
    (claimer backend : Pubkey) (amount : Nat) (timestamp : Int)
    (signature : List Nat) (sv : InstructionsSysvar) (now : Int)
    (dataEmpty : Bool) (cfg : ConfigAccount) (uc : UserClaimAccount)
    (hp : cfg.emergency_paused = false) (ha : amount ≠ 0)
    (hb : uc.is_blacklisted = false)
    (hnov : cfg.total_minted + amount ≤ U64MAX)
    (hs : cfg.total_minted + amount ≤ cfg.total_supply_limit)
    (hv : verify_signature sv (claim_message claimer amount timestamp)
      signature backend = .ok ())
    (ht : (now - timestamp).natAbs ≤ 300) :
    claim_tokens claimer backend amount timestamp signature sv now dataEmpty
      cfg uc
      = claim_limits_step amount now cfg
          (after_windows claimer now dataEmpty uc) := by
  unfold claim_tokens
  rw [if_neg (by simp [hp]), if_neg ha, if_neg (by simp [hb]),
    if_neg (Nat.not_lt.mpr hnov), if_neg (Nat.not_lt.mpr hs), hv,
    if_neg (Nat.not_lt.mpr ht)]

/-! ## Claim theorems -/

/-- C4 (amended): the result of `verify_signature` does not depend on its
`_message`, `_signature` or `_public_key` parameters — any two calls agreeing
on the instructions sysvar give equal results; and, for a sysvar whose
current index is a valid instruction position, the call returns `Ok` exactly
when the current index is positive and the instruction at position
`(index − 1) mod 256` — the position the source's truncating `as u8` cast
actually loads — carries the ed25519 program's identity, and returns
`InvalidSignature` otherwise. -/
theorem verify_signature_position_only
    (sv : InstructionsSysvar) (m1 m2 : SignedMessage) (s1 s2 : List Nat)
    (k1 k2 : Pubkey)
    (hwf : sv.currentIndex < sv.instructionProgramIds.length) :
    verify_signature sv m1 s1 k1 = verify_signature sv m2 s2 k2 ∧
    (verify_signature sv m1 s1 k1 = .ok () ↔
      0 < sv.currentIndex ∧
        sv.instructionProgramIds.get? ((sv.currentIndex - 1) % 256)
          = some ED25519_PROGRAM_ID) ∧
    (verify_signature sv m1 s1 k1 ≠ .ok () →
      verify_signature sv m1 s1 k1 = .error .InvalidSignature) := by
  refine ⟨rfl, ?_, ?_⟩ <;> unfold verify_signature <;>
    by_cases hpos : 0 < sv.currentIndex
  · simp only [gt_iff_lt, hpos, if_true]
    have hlt : (sv.currentIndex - 1) % 256
        < sv.instructionProgramIds.length :=
      lt_of_le_of_lt (le_trans (Nat.mod_le _ _) (Nat.sub_le _ _)) hwf
    rw [List.get?_eq_get hlt]
    by_cases hid : sv.instructionProgramIds.get
        ⟨(sv.currentIndex - 1) % 256, hlt⟩ = ED25519_PROGRAM_ID
    · simp [hid, hpos]
    · simp [hid, hpos]
  · simp [hpos]
  · simp only [gt_iff_lt, hpos, if_true]
    have hlt : (sv.currentIndex - 1) % 256
        < sv.instructionProgramIds.length :=
      lt_of_le_of_lt (le_trans (Nat.mod_le _ _) (Nat.sub_le _ _)) hwf
    rw [List.get?_eq_get hlt]
    by_cases hid : sv.instructionProgramIds.get
        ⟨(sv.currentIndex - 1) % 256, hlt⟩ = ED25519_PROGRAM_ID
    · simp [hid]
    · simp [hid]
  · simp [hpos]

set_option maxRecDepth 4000 in
/-- Counterexample for C4 as frozen: at instruction position 257 the
instruction at `index − 1 = 256` is the ed25519 program, yet the call
returns `InvalidSignature`, because the `as u8` cast wraps the loaded
position to `(257 − 1) mod 256 = 0`, where a different program sits. -/
theorem verify_signature_position_only_cex :
    0 < exSysvarWrap.currentIndex ∧
    exSysvarWrap.instructionProgramIds.get? (exSysvarWrap.currentIndex - 1)
      = some ED25519_PROGRAM_ID ∧
    exSysvarWrap.currentIndex < exSysvarWrap.instructionProgramIds.length ∧
    verify_signature exSysvarWrap (claim_message 1 2 3) [4] 5
      = .error .InvalidSignature :=
  ⟨by decide, by decide, by decide, rfl⟩

/-- Witness for C4 at a concrete sysvar, with the hypothesis discharged. -/
theorem verify_signature_position_only_witness :
    exSysvarOk.currentIndex < exSysvarOk.instructionProgramIds.length ∧
    (verify_signature exSysvarOk (claim_message 1 2 3) [4] 5
        = verify_signature exSysvarOk (burn_message 9 8 7) [6] 0 ∧
      (verify_signature exSysvarOk (claim_message 1 2 3) [4] 5 = .ok () ↔
        0 < exSysvarOk.currentIndex ∧
          exSysvarOk.instructionProgramIds.get?
              ((exSysvarOk.currentIndex - 1) % 256)
            = some ED25519_PROGRAM_ID) ∧
      (verify_signature exSysvarOk (claim_message 1 2 3) [4] 5 ≠ .ok () →
        verify_signature exSysvarOk (claim_message 1 2 3) [4] 5
          = .error .InvalidSignature)) :=
  ⟨by decide,
    verify_signature_position_only exSysvarOk (claim_message 1 2 3)
      (burn_message 9 8 7) [4] [6] 5 0 (by decide)⟩

/-- C3: for a call to `execute_admin_action` by the configured administrator
on a pending action with `executed = false`: before 86400 seconds have
elapsed since the request the call fails with `InvalidInput` and the
configuration is unchanged; at ≥ 86400 seconds it succeeds, applies the
stored action's effect to the config and sets `executed = true`; and any
pending action with `executed = true` is always rejected with `InvalidInput`,
so the same pending action can never be executed twice. -/
theorem execute_admin_action_timelock
    (admin : Pubkey) (now : Int) (cfg : ConfigAccount)
    (pa : PendingAdminAction)
    (hadmin : admin = cfg.admin) (hexec : pa.executed = false) :
    (now - pa.requested_at < 86400 →
      execute_admin_action admin now cfg pa = .err .InvalidInput (cfg, pa) ∧
      commit (cfg, pa) (execute_admin_action admin now cfg pa) = (cfg, pa)) ∧
    (86400 ≤ now - pa.requested_at →
      execute_admin_action admin now cfg pa
        = .ok (apply_admin_action pa cfg, { pa with executed := true })) ∧
    (∀ (admin2 : Pubkey) (now2 : Int) (cfg2 : ConfigAccount)
        (pa2 : PendingAdminAction), pa2.executed = true →
      execute_admin_action admin2 now2 cfg2 pa2
        = .err .InvalidInput (cfg2, pa2)) := by
  refine ⟨?_, ?_, ?_⟩
  · intro hlt
    have he : execute_admin_action admin now cfg pa
        = .err .InvalidInput (cfg, pa) := by
      unfold execute_admin_action
      rw [if_neg (by simp [hexec]), if_neg (by simp [hadmin]),
        if_neg (by simp [hexec]), if_pos (by omega)]
    exact ⟨he, commit_of_err he⟩
  · intro hge
    unfold execute_admin_action
    rw [if_neg (by simp [hexec]), if_neg (by simp [hadmin]),
      if_neg (by simp [hexec]), if_neg (by omega)]
  · intro admin2 now2 cfg2 pa2 hex2
    unfold execute_admin_action
    rw [if_pos hex2]

/-- Witness for C3 at a concrete administrator and pending action,
exercising all three branches: the too-early call at `now = 1000` fails with
`InvalidInput` and leaves the state unchanged, the call at `exNow`
(≥ 86400 s later) succeeds and marks the action executed, and the executed
action is rejected afterwards. -/
theorem execute_admin_action_timelock_witness :
    ((1 : Pubkey) = exConfig.admin ∧ exPending.executed = false) ∧
    (execute_admin_action 1 1000 exConfig exPending
        = .err .InvalidInput (exConfig, exPending) ∧
      commit (exConfig, exPending)
          (execute_admin_action 1 1000 exConfig exPending)
        = (exConfig, exPending)) ∧
    execute_admin_action 1 exNow exConfig exPending
      = .ok (apply_admin_action exPending exConfig,
             { exPending with executed := true }) ∧
    execute_admin_action 1 exNow exConfig { exPending with executed := true }
      = .err .InvalidInput (exConfig, { exPending with executed := true }) :=
  ⟨⟨by decide, by decide⟩,
    (execute_admin_action_timelock 1 1000 exConfig exPending (by decide)
      (by decide)).1 (by decide),
    (execute_admin_action_timelock 1 exNow exConfig exPending (by decide)
      (by decide)).2.1 (by decide),
    (execute_admin_action_timelock 1 exNow exConfig exPending (by decide)
      (by decide)).2.2 1 exNow exConfig { exPending with executed := true }
      (by decide)⟩

/-- C1: the global supply invariant of `claim_tokens`.  A successful claim
makes `total_minted` exactly the old `total_minted + amount`, and
`total_minted ≤ total_supply_limit` holds both before and after; conversely,
once the checks preceding the supply check pass, a claim whose amount would
push `total_minted` past `total_supply_limit` is rejected with
`MathOverflow` when the checked add overflows `u64` and with
`InvalidPaymentAmount` otherwise. -/
theorem claim_tokens_supply_invariant
    (claimer backend : Pubkey) (amount : Nat) (timestamp : Int)
    (signature : List Nat) (sv : InstructionsSysvar) (now : Int)
    (dataEmpty : Bool) (cfg : ConfigAccount) (uc : UserClaimAccount) :
    (∀ cfg' uc',
      claim_tokens claimer backend amount timestamp signature sv now dataEmpty
          cfg uc = .ok (cfg', uc') →
      cfg'.total_minted = cfg.total_minted + amount ∧
      cfg.total_minted ≤ cfg.total_supply_limit ∧
      cfg'.total_minted ≤ cfg'.total_supply_limit) ∧
    (cfg.emergency_paused = false → amount ≠ 0 → uc.is_blacklisted = false →
      cfg.total_supply_limit < cfg.total_minted + amount →
      claim_tokens claimer backend amount timestamp signature sv now dataEmpty
          cfg uc
        = .err (if U64MAX < cfg.total_minted + amount then .MathOverflow
                else .InvalidPaymentAmount) (cfg, uc)) := by
  constructor
  · intro cfg' uc' h
    obtain ⟨_, _, _, _, hs, _, _, hstep⟩ := claim_tokens_ok_elim h
    obtain ⟨_, _, hc, _⟩ := claim_limits_step_ok_elim hstep
    subst hc
    exact ⟨rfl, le_trans (Nat.le_add_right _ _) hs, hs⟩
  · intro hp ha hb hexceed
    unfold claim_tokens
    rw [if_neg (by simp [hp]), if_neg ha, if_neg (by simp [hb])]
    by_cases hov : U64MAX < cfg.total_minted + amount
    · rw [if_pos hov, if_pos hov]
    · rw [if_neg hov, if_pos hexceed, if_neg hov]

/-- Witness for C1: with limit 1000 and 999 minted, a claim of 1 succeeds
and reaches the cap exactly, while a claim of 2 is rejected with
`InvalidPaymentAmount`. -/
theorem claim_tokens_supply_invariant_witness :
    (claim_tokens 5 9 1 exNow [4] exSysvarOk exNow false exConfigNearCap
        exUserStale
      = .ok ({ exConfigNearCap with total_minted := 1000 },
             exUserAfterNearCap) ∧
      ({ exConfigNearCap with total_minted := 1000 }
          : ConfigAccount).total_minted
        = exConfigNearCap.total_minted + 1 ∧
      exConfigNearCap.total_minted ≤ exConfigNearCap.total_supply_limit ∧
      ({ exConfigNearCap with total_minted := 1000 }
          : ConfigAccount).total_minted
        ≤ ({ exConfigNearCap with total_minted := 1000 }
          : ConfigAccount).total_supply_limit) ∧
    (exConfigNearCap.emergency_paused = false ∧ (2 : Nat) ≠ 0 ∧
      exUserStale.is_blacklisted = false ∧
      exConfigNearCap.total_supply_limit < exConfigNearCap.total_minted + 2 ∧
      claim_tokens 5 9 2 exNow [4] exSysvarOk exNow false exConfigNearCap
          exUserStale
        = .err (if U64MAX < exConfigNearCap.total_minted + 2 then .MathOverflow
                else .InvalidPaymentAmount) (exConfigNearCap, exUserStale)) :=
  ⟨⟨by decide,
    (claim_tokens_supply_invariant 5 9 1 exNow [4] exSysvarOk exNow false
        exConfigNearCap exUserStale).1
      ({ exConfigNearCap with total_minted := 1000 }) exUserAfterNearCap
      (by decide)⟩,
   by decide, by decide, by decide, by decide,
    (claim_tokens_supply_invariant 5 9 2 exNow [4] exSysvarOk exNow false
        exConfigNearCap exUserStale).2 (by decide) (by decide) (by decide)
      (by decide)⟩

/-- Rejection characterization of the limit phase: when the window-adjusted
counters would exceed a quota, the run fails, with the error code determined
by which check (overflow or quota) fires first. -/
theorem claim_limits_step_reject {amount : Nat} {now : Int}
    {cfg : ConfigAccount} {uc1 : UserClaimAccount}
    (hover : cfg.max_claim_per_user / 24 < uc1.hourly_claimed + amount ∨
      cfg.max_claim_per_user < uc1.daily_claimed + amount) :
    claim_limits_step amount now cfg uc1
      = .err (if U64MAX < uc1.hourly_claimed + amount then .MathOverflow
              else if cfg.max_claim_per_user / 24
                  < uc1.hourly_claimed + amount then .InvalidPaymentAmount
              else if U64MAX < uc1.daily_claimed + amount then .MathOverflow
              else .InvalidPaymentAmount) (cfg, uc1) := by
  unfold claim_limits_step
  by_cases h1 : U64MAX < uc1.hourly_claimed + amount
  · rw [if_pos h1, if_pos h1]
  · rw [if_neg h1, if_neg h1]
    by_cases h2 : cfg.max_claim_per_user / 24 < uc1.hourly_claimed + amount
    · rw [if_pos h2, if_pos h2]
    · rw [if_neg h2, if_neg h2]
      by_cases h3 : U64MAX < uc1.daily_claimed + amount
      · rw [if_pos h3, if_pos h3]
      · rw [if_neg h3, if_neg h3]
        have h4 : cfg.max_claim_per_user < uc1.daily_claimed + amount := by
          rcases hover with h | h
          · omega
          · exact h
        rw [if_pos h4]

/-- C2 (amended): a successful claim leaves `daily_claimed ≤
max_claim_per_user` and `hourly_claimed ≤ max_claim_per_user / 24`; and once
the checks preceding the limit phase pass, a claim whose amount would push
either window-adjusted counter past its bound never succeeds, leaves the
committed record unchanged, and — when the two checked additions fit in
`u64` — is rejected with `InvalidPaymentAmount` (a checked addition that
overflows is rejected with `MathOverflow` instead). -/
theorem claim_tokens_rate_limits
    (claimer backend : Pubkey) (amount : Nat) (timestamp : Int)
    (signature : List Nat) (sv : InstructionsSysvar) (now : Int)
    (dataEmpty : Bool) (cfg : ConfigAccount) (uc : UserClaimAccount) :
    (∀ cfg' uc',
      claim_tokens claimer backend amount timestamp signature sv now dataEmpty
          cfg uc = .ok (cfg', uc') →
      uc'.daily_claimed ≤ cfg.max_claim_per_user ∧
      uc'.hourly_claimed ≤ cfg.max_claim_per_user / 24) ∧
    (cfg.emergency_paused = false → amount ≠ 0 → uc.is_blacklisted = false →
      cfg.total_minted + amount ≤ U64MAX →
      cfg.total_minted + amount ≤ cfg.total_supply_limit →
      verify_signature sv (claim_message claimer amount timestamp) signature
        backend = .ok () →
      (now - timestamp).natAbs ≤ 300 →
      (cfg.max_claim_per_user / 24
          < (after_windows claimer now dataEmpty uc).hourly_claimed + amount ∨
        cfg.max_claim_per_user
          < (after_windows claimer now dataEmpty uc).daily_claimed + amount) →
      (claim_tokens claimer backend amount timestamp signature sv now dataEmpty
          cfg uc).isOk = false ∧
      commit (cfg, uc) (claim_tokens claimer backend amount timestamp signature
          sv now dataEmpty cfg uc) = (cfg, uc) ∧
      ((after_windows claimer now dataEmpty uc).hourly_claimed + amount
          ≤ U64MAX →
        (after_windows claimer now dataEmpty uc).daily_claimed + amount
          ≤ U64MAX →
        claim_tokens claimer backend amount timestamp signature sv now dataEmpty
            cfg uc
          = .err .InvalidPaymentAmount
              (cfg, after_windows claimer now dataEmpty uc))) := by
  constructor
  · intro cfg' uc' h
    obtain ⟨_, _, _, _, _, _, _, hstep⟩ := claim_tokens_ok_elim h
    obtain ⟨h1, h2, _, hu⟩ := claim_limits_step_ok_elim hstep
    subst hu
    exact ⟨h2, h1⟩
  · intro hp ha hb hnov hs hv ht hover
    have heq := claim_tokens_checks_pass claimer backend amount timestamp
      signature sv now dataEmpty cfg uc hp ha hb hnov hs hv ht
    have hrej := @claim_limits_step_reject amount now cfg
      (after_windows claimer now dataEmpty uc) hover
    refine ⟨?_, ?_, ?_⟩
    · rw [heq, hrej]; rfl
    · rw [heq]; exact commit_of_err hrej
    · intro hno1 hno2
      rw [heq, hrej, if_neg (Nat.not_lt.mpr hno1)]
      by_cases h2 : cfg.max_claim_per_user / 24
          < (after_windows claimer now dataEmpty uc).hourly_claimed + amount
      · rw [if_pos h2]
      · rw [if_neg h2, if_neg (Nat.not_lt.mpr hno2)]

/-- Counterexample for C2 as frozen: with the hourly counter at `u64::MAX`
inside a live window, a claim of 1 would push the counter past its bound but
is rejected with `MathOverflow`, not `InvalidPaymentAmount`. -/
theorem claim_tokens_rate_limits_cex :
    exConfig.max_claim_per_user / 24 < exUserHourlyMax.hourly_claimed + 1 ∧
    claim_tokens 5 9 1 exNow [4] exSysvarOk exNow false exConfig
        exUserHourlyMax
      = .err .MathOverflow (exConfig, exUserHourlyMax) :=
  ⟨by decide, by decide⟩

/-- Witness for C2 (amended): with the hourly quota of 100 exhausted, a
claim of 1 in the same hourly window is rejected with
`InvalidPaymentAmount` and the committed record is unchanged. -/
theorem claim_tokens_rate_limits_witness :
    (claim_tokens 5 9 1 exNow [4] exSysvarOk exNow false exConfig
        exUserHourlyFull).isOk = false ∧
    commit (exConfig, exUserHourlyFull)
        (claim_tokens 5 9 1 exNow [4] exSysvarOk exNow false exConfig
          exUserHourlyFull)
      = (exConfig, exUserHourlyFull) ∧
    claim_tokens 5 9 1 exNow [4] exSysvarOk exNow false exConfig
        exUserHourlyFull
      = .err .InvalidPaymentAmount
          (exConfig, after_windows 5 exNow false exUserHourlyFull) := by
  have h := (claim_tokens_rate_limits 5 9 1 exNow [4] exSysvarOk exNow false
      exConfig exUserHourlyFull).2 (by decide) (by decide) (by decide)
      (by decide) (by decide) rfl (by decide) (Or.inl (by decide))
  exact ⟨h.1, h.2.1, h.2.2 (by decide) (by decide)⟩

/-- With empty account data, the record-preparation phase yields exactly the
freshly initialized record (whose window-start timestamps are `now`, so
neither window reset fires). -/
theorem after_windows_fresh (claimer : Pubkey) (now : Int)
    (uc : UserClaimAccount) :
    after_windows claimer now true uc = fresh_user_claim claimer now := by
  simp [after_windows, fresh_user_claim]

/-- C5 (amended): a claim whose timestamp is farther than 300 seconds from
the clock never succeeds and leaves the committed state unchanged; it fails
specifically with `ExpiredSignature` whenever the checks that precede the
timestamp check (pause, amount, blacklist, supply cap, signature presence)
pass — when one of those fails, that check's own error is returned instead. -/
theorem claim_tokens_expired
    (claimer backend : Pubkey) (amount : Nat) (timestamp : Int)
    (signature : List Nat) (sv : InstructionsSysvar) (now : Int)
    (dataEmpty : Bool) (cfg : ConfigAccount) (uc : UserClaimAccount)
    (hexp : 300 < (now - timestamp).natAbs) :
    (claim_tokens claimer backend amount timestamp signature sv now dataEmpty
        cfg uc).isOk = false ∧
    commit (cfg, uc) (claim_tokens claimer backend amount timestamp signature
        sv now dataEmpty cfg uc) = (cfg, uc) ∧
    (cfg.emergency_paused = false → amount ≠ 0 → uc.is_blacklisted = false →
      cfg.total_minted + amount ≤ U64MAX →
      cfg.total_minted + amount ≤ cfg.total_supply_limit →
      verify_signature sv (claim_message claimer amount timestamp) signature
        backend = .ok () →
      claim_tokens claimer backend amount timestamp signature sv now dataEmpty
          cfg uc = .err .ExpiredSignature (cfg, uc)) := by
  have hnotok : ∀ out, claim_tokens claimer backend amount timestamp signature
      sv now dataEmpty cfg uc ≠ .ok out := by
    intro out h
    obtain ⟨_, _, _, _, _, _, ht, _⟩ := claim_tokens_ok_elim h
    omega
  refine ⟨?_, ?_, ?_⟩
  · rcases hres : claim_tokens claimer backend amount timestamp signature sv
        now dataEmpty cfg uc with out | ⟨e, s⟩
    · exact absurd hres (hnotok out)
    · rfl
  · rcases hres : claim_tokens claimer backend amount timestamp signature sv
        now dataEmpty cfg uc with out | ⟨e, s⟩
    · exact absurd hres (hnotok out)
    · rfl
  · intro hp ha hb hnov hs hv
    unfold claim_tokens
    rw [if_neg (by simp [hp]), if_neg ha, if_neg (by simp [hb]),
      if_neg (Nat.not_lt.mpr hnov), if_neg (Nat.not_lt.mpr hs), hv,
      if_pos hexp]

/-- Counterexample for C5 as frozen: an expired claim whose transaction does
not carry a preceding ed25519 instruction fails with `InvalidSignature`, not
`ExpiredSignature` — the signature check runs first. -/
theorem claim_tokens_expired_cex :
    300 < (exNow - (exNow - 301)).natAbs ∧
    claim_tokens 5 9 1 (exNow - 301) [4] exSysvarBad exNow false exConfig
        exUserStale
      = .err .InvalidSignature (exConfig, exUserStale) :=
  ⟨by decide, by decide⟩

/-- Witness for C5 (amended): an expired but otherwise valid claim is
rejected with `ExpiredSignature` and the committed state is unchanged. -/
theorem claim_tokens_expired_witness :
    300 < (exNow - (exNow - 301)).natAbs ∧
    ((claim_tokens 5 9 1 (exNow - 301) [4] exSysvarOk exNow false exConfig
        exUserStale).isOk = false ∧
      commit (exConfig, exUserStale)
          (claim_tokens 5 9 1 (exNow - 301) [4] exSysvarOk exNow false
            exConfig exUserStale)
        = (exConfig, exUserStale) ∧
      claim_tokens 5 9 1 (exNow - 301) [4] exSysvarOk exNow false exConfig
          exUserStale
        = .err .ExpiredSignature (exConfig, exUserStale)) := by
  have h := claim_tokens_expired 5 9 1 (exNow - 301) [4] exSysvarOk exNow
    false exConfig exUserStale (by decide)
  exact ⟨by decide, h.1, h.2.1,
    h.2.2 (by decide) (by decide) (by decide) (by decide) (by decide) rfl⟩

/-- C6 (amended): once the pause and amount checks pass, a claim by a user
whose record has `is_blacklisted = true` fails with `Unauthorized` and the
committed state is unchanged; `claim_tokens` consults only that per-record
flag — the blacklist registry is not among its inputs — and a first-time
claimant's record is initialized with `is_blacklisted = false` and, all other
checks passing, the claim succeeds. -/
theorem claim_tokens_blacklist
    (claimer backend : Pubkey) (amount : Nat) (timestamp : Int)
    (signature : List Nat) (sv : InstructionsSysvar) (now : Int)
    (dataEmpty : Bool) (cfg : ConfigAccount) (uc : UserClaimAccount) :
    (cfg.emergency_paused = false → amount ≠ 0 → uc.is_blacklisted = true →
      claim_tokens claimer backend amount timestamp signature sv now dataEmpty
          cfg uc = .err .Unauthorized (cfg, uc) ∧
      commit (cfg, uc) (claim_tokens claimer backend amount timestamp signature
          sv now dataEmpty cfg uc) = (cfg, uc)) ∧
    (fresh_user_claim claimer now).is_blacklisted = false ∧
    zero_user_claim.is_blacklisted = false ∧
    (cfg.emergency_paused = false → amount ≠ 0 →
      cfg.total_minted + amount ≤ U64MAX →
      cfg.total_minted + amount ≤ cfg.total_supply_limit →
      verify_signature sv (claim_message claimer amount timestamp) signature
        backend = .ok () →
      (now - timestamp).natAbs ≤ 300 →
      amount ≤ cfg.max_claim_per_user / 24 →
      claim_tokens claimer backend amount timestamp signature sv now true cfg
          zero_user_claim
        = .ok ({ cfg with total_minted := cfg.total_minted + amount },
               { user := claimer, total_claimed := 0 + amount,
                 last_claim_timestamp := now, daily_claimed := 0 + amount,
                 daily_reset_timestamp := now, hourly_claimed := 0 + amount,
                 hourly_reset_timestamp := now, nonce := 0 + 1,
                 is_blacklisted := false })) := by
  refine ⟨?_, rfl, rfl, ?_⟩
  · intro hp ha hb
    have he : claim_tokens claimer backend amount timestamp signature sv now
        dataEmpty cfg uc = .err .Unauthorized (cfg, uc) := by
      unfold claim_tokens
      rw [if_neg (by simp [hp]), if_neg ha, if_pos hb]
    exact ⟨he, commit_of_err he⟩
  · intro hp ha hnov hs hv ht hq
    have hamU : amount ≤ U64MAX := le_trans (Nat.le_add_left _ _) hnov
    have hU1 : 1 ≤ U64MAX := by decide
    have heq := claim_tokens_checks_pass claimer backend amount timestamp
      signature sv now true cfg zero_user_claim hp ha rfl hnov hs hv ht
    rw [heq, after_windows_fresh]
    unfold claim_limits_step
    rw [if_neg (by simp only [fresh_user_claim]; omega),
      if_neg (by simp only [fresh_user_claim]; omega),
      if_neg (by simp only [fresh_user_claim]; omega),
      if_neg (by simp only [fresh_user_claim]; omega),
      if_neg (by simp only [fresh_user_claim]; omega),
      if_neg (by simp only [fresh_user_claim]; omega)]
    simp [fresh_user_claim]

/-- Counterexample for C6 as frozen: with the system paused, a blacklisted
user's claim fails with `SystemPaused`, not `Unauthorized`. -/
theorem claim_tokens_blacklist_cex :
    exUserBlacklisted.is_blacklisted = true ∧
    claim_tokens 5 9 1 exNow [4] exSysvarOk exNow false exConfigPaused
        exUserBlacklisted
      = .err .SystemPaused (exConfigPaused, exUserBlacklisted) :=
  ⟨by decide, by decide⟩

/-- Witness for C6 (amended): on the unpaused config a blacklisted user is
rejected with `Unauthorized`, while a first-time claimant (empty account
data, zero-initialized record) successfully claims 1. -/
theorem claim_tokens_blacklist_witness :
    (claim_tokens 5 9 1 exNow [4] exSysvarOk exNow false exConfig
        exUserBlacklisted = .err .Unauthorized (exConfig, exUserBlacklisted) ∧
      commit (exConfig, exUserBlacklisted)
          (claim_tokens 5 9 1 exNow [4] exSysvarOk exNow false exConfig
            exUserBlacklisted)
        = (exConfig, exUserBlacklisted)) ∧
    claim_tokens 5 9 1 exNow [4] exSysvarOk exNow true exConfig
        zero_user_claim
      = .ok ({ exConfig with total_minted := exConfig.total_minted + 1 },
             { user := 5, total_claimed := 0 + 1, last_claim_timestamp := exNow,
               daily_claimed := 0 + 1, daily_reset_timestamp := exNow,
               hourly_claimed := 0 + 1, hourly_reset_timestamp := exNow,
               nonce := 0 + 1, is_blacklisted := false }) :=
  ⟨(claim_tokens_blacklist 5 9 1 exNow [4] exSysvarOk exNow false exConfig
      exUserBlacklisted).1 (by decide) (by decide) (by decide),
   (claim_tokens_blacklist 5 9 1 exNow [4] exSysvarOk exNow true exConfig
      exUserBlacklisted).2.2.2 (by decide) (by decide) (by decide) (by decide)
      rfl (by decide) (by decide)⟩

/-- C7: every operation is atomic on error — whenever any of the eight
instructions returns an error, the committed persistent state (under the
runtime's rollback semantics) is exactly the pre-state; moreover the
in-memory state at the moment of a rejection can really differ from the
pre-state (a claim whose window resets were applied before the limit check
rejected it), and it is still discarded. -/
theorem operations_atomic_on_error :
    (∀ (claimer backend : Pubkey) (amount : Nat) (timestamp : Int)
        (signature : List Nat) (sv : InstructionsSysvar) (now : Int)
        (dataEmpty : Bool) (cfg : ConfigAccount) (uc : UserClaimAccount)
        (e : ErrorCode) (s : ConfigAccount × UserClaimAccount),
      claim_tokens claimer backend amount timestamp signature sv now dataEmpty
          cfg uc = .err e s →
      commit (cfg, uc) (claim_tokens claimer backend amount timestamp signature
          sv now dataEmpty cfg uc) = (cfg, uc)) ∧
    (∀ (payer backend : Pubkey) (amount : Nat) (timestamp : Int)
        (signature : List Nat) (description : String)
        (sv : InstructionsSysvar) (now : Int) (payer_balance : Nat)
        (cfg : ConfigAccount) (e : ErrorCode) (s : ConfigAccount),
      burn_tokens payer backend amount timestamp signature description sv now
          payer_balance cfg = .err e s →
      commit cfg (burn_tokens payer backend amount timestamp signature
          description sv now payer_balance cfg) = cfg) ∧
    (∀ (admin : Pubkey) (amount : Nat) (recipient token_mint : Pubkey)
        (cfg : ConfigAccount) (e : ErrorCode) (s : ConfigAccount),
      mint_tokens admin amount recipient token_mint cfg = .err e s →
      commit cfg (mint_tokens admin amount recipient token_mint cfg) = cfg) ∧
    (∀ (admin user : Pubkey) (cfg : ConfigAccount) (bl : BlacklistAccount)
        (uc : Option UserClaimAccount) (e : ErrorCode)
        (s : BlacklistAccount × Option UserClaimAccount),
      add_to_blacklist admin user cfg bl uc = .err e s →
      commit (bl, uc) (add_to_blacklist admin user cfg bl uc) = (bl, uc)) ∧
    (∀ (admin user : Pubkey) (cfg : ConfigAccount) (bl : BlacklistAccount)
        (uc : Option UserClaimAccount) (e : ErrorCode)
        (s : BlacklistAccount × Option UserClaimAccount),
      remove_from_blacklist admin user cfg bl uc = .err e s →
      commit (bl, uc) (remove_from_blacklist admin user cfg bl uc) = (bl, uc)) ∧
    (∀ (admin : Pubkey) (aty : AdminActionType) (nv : Pubkey) (now : Int)
        (cfg : ConfigAccount) (slot : Option PendingAdminAction)
        (e : ErrorCode) (s : Option PendingAdminAction),
      request_admin_action admin aty nv now cfg slot = .err e s →
      commit slot (request_admin_action admin aty nv now cfg slot) = slot) ∧
    (∀ (admin : Pubkey) (now : Int) (cfg : ConfigAccount)
        (pa : PendingAdminAction) (e : ErrorCode)
        (s : ConfigAccount × PendingAdminAction),
      execute_admin_action admin now cfg pa = .err e s →
      commit (cfg, pa) (execute_admin_action admin now cfg pa) = (cfg, pa)) ∧
    (∀ (admin : Pubkey) (reason : String) (cfg : ConfigAccount)
        (e : ErrorCode) (s : ConfigAccount),
      emergency_pause admin reason cfg = .err e s →
      commit cfg (emergency_pause admin reason cfg) = cfg) ∧
    (claim_tokens 5 9 101 exNow [4] exSysvarOk exNow false exConfig exUserStale
        = .err .InvalidPaymentAmount (exConfig, exUserStaleReset) ∧
      exUserStaleReset ≠ exUserStale ∧
      commit (exConfig, exUserStale)
          (claim_tokens 5 9 101 exNow [4] exSysvarOk exNow false exConfig
            exUserStale)
        = (exConfig, exUserStale)) := by
  refine ⟨?_, ?_, ?_, ?_, ?_, ?_, ?_, ?_, by decide, by decide, by decide⟩
  · intro claimer backend amount timestamp signature sv now dataEmpty cfg uc
      e s h
    exact commit_of_err h
  · intro payer backend amount timestamp signature description sv now
      payer_balance cfg e s h
    exact commit_of_err h
  · intro admin amount recipient token_mint cfg e s h
    exact commit_of_err h
  · intro admin user cfg bl uc e s h
    exact commit_of_err h
  · intro admin user cfg bl uc e s h
    exact commit_of_err h
  · intro admin aty nv now cfg slot e s h
    exact commit_of_err h
  · intro admin now cfg pa e s h
    exact commit_of_err h
  · intro admin reason cfg e s h
    exact commit_of_err h

/-- Witness for C7: the rejected over-quota claim and an unauthorized
emergency-pause call both leave the committed state at the pre-state. -/
theorem operations_atomic_on_error_witness :
    commit (exConfig, exUserStale)
        (claim_tokens 5 9 101 exNow [4] exSysvarOk exNow false exConfig
          exUserStale)
      = (exConfig, exUserStale) ∧
    commit exConfig (emergency_pause 2 "x" exConfig) = exConfig :=
  ⟨operations_atomic_on_error.1 5 9 101 exNow [4] exSysvarOk exNow false
      exConfig exUserStale .InvalidPaymentAmount (exConfig, exUserStaleReset)
      (by decide),
   operations_atomic_on_error.2.2.2.2.2.2.2.1 2 "x" exConfig .Unauthorized
      exConfig (by decide)⟩

/-- C8 (amended): `request_admin_action` by the configured administrator on a
nonexistent pending-action account creates it with the requested kind and
value, `requested_at = now` and `executed = false`; but whenever a pending
action account already exists for that administrator (executed or not), the
call fails during account initialization (`init` on an existing account) and
the prior pending action is left unchanged — it is never overwritten. -/
theorem request_admin_action_spec (admin : Pubkey) (aty : AdminActionType)
    (nv : Pubkey) (now : Int) (cfg : ConfigAccount)
    (slot : Option PendingAdminAction) :
    (admin = cfg.admin → slot = none →
      request_admin_action admin aty nv now cfg slot
        = .ok (some { action_type := aty, new_value := nv,
                      requested_at := now, executed := false })) ∧
    (∀ pa, slot = some pa →
      request_admin_action admin aty nv now cfg slot
        = .err .AccountAlreadyInUse (some pa) ∧
      commit slot (request_admin_action admin aty nv now cfg slot) = slot) := by
  constructor
  · intro hadmin hnone
    subst hnone
    unfold request_admin_action
    rw [if_neg (by simp [hadmin])]
  · intro pa hsome
    subst hsome
    exact ⟨rfl, rfl⟩

/-- Counterexample for C8 as frozen: with a prior pending action in place,
a re-request by the configured administrator fails with the account-in-use
initialization error instead of succeeding and overwriting. -/
theorem request_admin_action_spec_cex :
    (1 : Pubkey) = exConfig.admin ∧
    request_admin_action 1 .ChangeToken 3 exNow exConfig (some exPending)
      = .err .AccountAlreadyInUse (some exPending) ∧
    (request_admin_action 1 .ChangeToken 3 exNow exConfig
        (some exPending)).isOk = false :=
  ⟨by decide, by decide, by decide⟩

/-- Witness for C8 (amended): a first request on an empty slot succeeds with
the expected record; a re-request on an occupied slot leaves it unchanged. -/
theorem request_admin_action_spec_witness :
    request_admin_action 1 .ChangeToken 3 exNow exConfig none
      = .ok (some { action_type := .ChangeToken, new_value := 3,
                    requested_at := exNow, executed := false }) ∧
    (request_admin_action 1 .ChangeToken 3 exNow exConfig (some exPending)
        = .err .AccountAlreadyInUse (some exPending) ∧
      commit (some exPending)
          (request_admin_action 1 .ChangeToken 3 exNow exConfig
            (some exPending))
        = some exPending) :=
  ⟨(request_admin_action_spec 1 .ChangeToken 3 exNow exConfig none).1
      (by decide) rfl,
   (request_admin_action_spec 1 .ChangeToken 3 exNow exConfig
      (some exPending)).2 exPending rfl⟩

/-- C9: blacklist mutation is idempotent.  Running `add_to_blacklist` twice
gives the same committed end state (registry and mirrored flag) as running it
once; the same holds for `remove_from_blacklist` on a duplicate-free registry
(every registry the program can build is duplicate-free: it starts empty and
`add` inserts only absent users — both operations preserve that invariant,
as the third conjunct shows); adding an already-present user or removing an
absent one returns success without changing any state. -/
theorem blacklist_idempotent (admin user : Pubkey) (cfg : ConfigAccount)
    (s : BlacklistAccount × Option UserClaimAccount) :
    add_to_blacklist_run admin user cfg (add_to_blacklist_run admin user cfg s)
      = add_to_blacklist_run admin user cfg s ∧
    (s.1.blacklisted_users.Nodup →
      remove_from_blacklist_run admin user cfg
          (remove_from_blacklist_run admin user cfg s)
        = remove_from_blacklist_run admin user cfg s) ∧
    (s.1.blacklisted_users.Nodup →
      (add_to_blacklist_run admin user cfg s).1.blacklisted_users.Nodup ∧
      (remove_from_blacklist_run admin user cfg s).1.blacklisted_users.Nodup) ∧
    (admin = cfg.admin → s.1.blacklisted_users.contains user = true →
      add_to_blacklist admin user cfg s.1 s.2 = .ok (s.1, s.2)) ∧
    (admin = cfg.admin → s.1.blacklisted_users.contains user = false →
      remove_from_blacklist admin user cfg s.1 s.2 = .ok (s.1, s.2)) := by
  have haddrun : ∀ t : BlacklistAccount × Option UserClaimAccount,
      add_to_blacklist_run admin user cfg t
        = if admin = cfg.admin then
            (if t.1.blacklisted_users.contains user then t
             else ({ t.1 with blacklisted_users :=
                       t.1.blacklisted_users ++ [user] },
                   match t.2 with
                   | some u => some { u with is_blacklisted := true }
                   | none => none))
          else t := by
    intro t
    unfold add_to_blacklist_run add_to_blacklist
    by_cases hadmin : admin = cfg.admin
    · rw [if_neg (by simp [hadmin]), if_pos hadmin]
      by_cases hc : t.1.blacklisted_users.contains user
      · rw [if_pos hc, if_pos hc]; rfl
      · rw [if_neg hc, if_neg hc]; rfl
    · rw [if_pos hadmin, if_neg hadmin]; rfl
  have hremrun : ∀ t : BlacklistAccount × Option UserClaimAccount,
      remove_from_blacklist_run admin user cfg t
        = if admin = cfg.admin then
            (if t.1.blacklisted_users.contains user then
              ({ t.1 with blacklisted_users :=
                    t.1.blacklisted_users.erase user },
               match t.2 with
               | some u => some { u with is_blacklisted := false }
               | none => none)
             else t)
          else t := by
    intro t
    unfold remove_from_blacklist_run remove_from_blacklist
    by_cases hadmin : admin = cfg.admin
    · rw [if_neg (by simp [hadmin]), if_pos hadmin]
      by_cases hc : t.1.blacklisted_users.contains user
      · rw [if_pos hc, if_pos hc]; rfl
      · rw [if_neg hc, if_neg hc]; rfl
    · rw [if_pos hadmin, if_neg hadmin]; rfl
  refine ⟨?_, ?_, ?_, ?_, ?_⟩
  · by_cases hadmin : admin = cfg.admin
    · by_cases hc : s.1.blacklisted_users.contains user
      · have h1 : add_to_blacklist_run admin user cfg s = s := by
          rw [haddrun, if_pos hadmin, if_pos hc]
        rw [h1, h1]
      · have h1 : add_to_blacklist_run admin user cfg s
            = ({ s.1 with blacklisted_users :=
                   s.1.blacklisted_users ++ [user] },
               match s.2 with
               | some u => some { u with is_blacklisted := true }
               | none => none) := by
          rw [haddrun, if_pos hadmin, if_neg hc]
        rw [h1, haddrun, if_pos hadmin, if_pos (by simp)]
    · have h1 : add_to_blacklist_run admin user cfg s = s := by
        rw [haddrun, if_neg hadmin]
      rw [h1, h1]
  · intro hnd
    by_cases hadmin : admin = cfg.admin
    · by_cases hc : s.1.blacklisted_users.contains user
      · have h1 : remove_from_blacklist_run admin user cfg s
            = ({ s.1 with blacklisted_users :=
                   s.1.blacklisted_users.erase user },
               match s.2 with
               | some u => some { u with is_blacklisted := false }
               | none => none) := by
          rw [hremrun, if_pos hadmin, if_pos hc]
        have hmem : user ∉ s.1.blacklisted_users.erase user :=
          hnd.not_mem_erase
        rw [h1, hremrun, if_pos hadmin]
        simp [List.elem_iff, hmem]
      · have h1 : remove_from_blacklist_run admin user cfg s = s := by
          rw [hremrun, if_pos hadmin, if_neg hc]
        rw [h1, h1]
    · have h1 : remove_from_blacklist_run admin user cfg s = s := by
        rw [hremrun, if_neg hadmin]
      rw [h1, h1]
  · intro hnd
    constructor
    · by_cases hadmin : admin = cfg.admin
      · by_cases hc : s.1.blacklisted_users.contains user
        · rw [haddrun, if_pos hadmin, if_pos hc]; exact hnd
        · rw [haddrun, if_pos hadmin, if_neg hc]
          show (s.1.blacklisted_users ++ [user]).Nodup
          refine List.nodup_append.mpr ⟨hnd, List.nodup_singleton user, ?_⟩
          intro a ha hb
          simp only [List.mem_singleton] at hb
          have hmem : user ∉ s.1.blacklisted_users := by simpa using hc
          exact hmem (hb ▸ ha)
      · rw [haddrun, if_neg hadmin]; exact hnd
    · by_cases hadmin : admin = cfg.admin
      · by_cases hc : s.1.blacklisted_users.contains user
        · rw [hremrun, if_pos hadmin, if_pos hc]
          show (s.1.blacklisted_users.erase user).Nodup
          exact (List.erase_sublist user s.1.blacklisted_users).nodup hnd
        · rw [hremrun, if_pos hadmin, if_neg hc]; exact hnd
      · rw [hremrun, if_neg hadmin]; exact hnd
  · intro hadmin hc
    unfold add_to_blacklist
    rw [if_neg (by simp [hadmin]), if_pos hc]
  · intro hadmin hc
    unfold remove_from_blacklist
    rw [if_neg (by simp [hadmin]), if_neg (by simpa using hc)]

/-- Witness for C9 on a concrete registry: double add and double remove
coincide with single runs, adding a present user and removing an absent one
are successful no-ops. -/
theorem blacklist_idempotent_witness :
    add_to_blacklist_run 1 5 exConfig
        (add_to_blacklist_run 1 5 exConfig (exBlacklist, some exUserStale))
      = add_to_blacklist_run 1 5 exConfig (exBlacklist, some exUserStale) ∧
    remove_from_blacklist_run 1 5 exConfig
        (remove_from_blacklist_run 1 5 exConfig
          (exBlacklist, some exUserStale))
      = remove_from_blacklist_run 1 5 exConfig (exBlacklist, some exUserStale) ∧
    add_to_blacklist 1 5 exConfig exBlacklist (some exUserStale)
      = .ok (exBlacklist, some exUserStale) ∧
    remove_from_blacklist 1 7 exConfig exBlacklist (some exUserStale)
      = .ok (exBlacklist, some exUserStale) :=
  ⟨(blacklist_idempotent 1 5 exConfig (exBlacklist, some exUserStale)).1,
   (blacklist_idempotent 1 5 exConfig (exBlacklist, some exUserStale)).2.1
      (by decide),
   (blacklist_idempotent 1 5 exConfig (exBlacklist, some exUserStale)).2.2.2.1
      (by decide) (by decide),
   (blacklist_idempotent 1 7 exConfig
      (exBlacklist, some exUserStale)).2.2.2.2 (by decide) (by decide)⟩

/-- C10: no single successful claim exceeds the truncated hourly quota —
every successful `claim_tokens` call has `amount ≤ max_claim_per_user / 24`;
consequently, when `max_claim_per_user < 24` the hourly quota is 0, no call
can ever succeed, and (once the earlier checks, including the hourly
checked-add, pass) a positive claim is rejected with
`InvalidPaymentAmount`. -/
theorem claim_tokens_hourly_quota
    (claimer backend : Pubkey) (amount : Nat) (timestamp : Int)
    (signature : List Nat) (sv : InstructionsSysvar) (now : Int)
    (dataEmpty : Bool) (cfg : ConfigAccount) (uc : UserClaimAccount) :
    (∀ cfg' uc',
      claim_tokens claimer backend amount timestamp signature sv now dataEmpty
          cfg uc = .ok (cfg', uc') →
      amount ≤ cfg.max_claim_per_user / 24) ∧
    (cfg.max_claim_per_user < 24 →
      (claim_tokens claimer backend amount timestamp signature sv now dataEmpty
          cfg uc).isOk = false) ∧
    (cfg.max_claim_per_user < 24 → cfg.emergency_paused = false →
      amount ≠ 0 → uc.is_blacklisted = false →
      cfg.total_minted + amount ≤ U64MAX →
      cfg.total_minted + amount ≤ cfg.total_supply_limit →
      verify_signature sv (claim_message claimer amount timestamp) signature
        backend = .ok () →
      (now - timestamp).natAbs ≤ 300 →
      (after_windows claimer now dataEmpty uc).hourly_claimed + amount
        ≤ U64MAX →
      claim_tokens claimer backend amount timestamp signature sv now dataEmpty
          cfg uc
        = .err .InvalidPaymentAmount
            (cfg, after_windows claimer now dataEmpty uc)) := by
  have hquota : ∀ cfg' uc',
      claim_tokens claimer backend amount timestamp signature sv now dataEmpty
          cfg uc = .ok (cfg', uc') →
      amount ≤ cfg.max_claim_per_user / 24 := by
    intro cfg' uc' h
    obtain ⟨_, _, _, _, _, _, _, hstep⟩ := claim_tokens_ok_elim h
    obtain ⟨h1, _, _, _⟩ := claim_limits_step_ok_elim hstep
    omega
  refine ⟨hquota, ?_, ?_⟩
  · intro hmax
    rcases hres : claim_tokens claimer backend amount timestamp signature sv
        now dataEmpty cfg uc with ⟨cfg', uc'⟩ | ⟨e, s⟩
    · have hle := hquota cfg' uc' hres
      have haz : amount ≠ 0 := (claim_tokens_ok_elim hres).2.1
      omega
    · rfl
  · intro hmax hp ha hb hnov hs hv ht hno
    have heq := claim_tokens_checks_pass claimer backend amount timestamp
      signature sv now dataEmpty cfg uc hp ha hb hnov hs hv ht
    rw [heq]
    unfold claim_limits_step
    rw [if_neg (Nat.not_lt.mpr hno), if_pos (by omega)]

/-- Witness for C10: with `max_claim_per_user = 23` a claim of 1 (all other
checks passing) is rejected with `InvalidPaymentAmount` and no claim
succeeds. -/
theorem claim_tokens_hourly_quota_witness :
    exConfigTinyMax.max_claim_per_user < 24 ∧
    ((claim_tokens 5 9 1 exNow [4] exSysvarOk exNow false exConfigTinyMax
        exUserStale).isOk = false ∧
      claim_tokens 5 9 1 exNow [4] exSysvarOk exNow false exConfigTinyMax
          exUserStale
        = .err .InvalidPaymentAmount
            (exConfigTinyMax, after_windows 5 exNow false exUserStale)) := by
  have h := claim_tokens_hourly_quota 5 9 1 exNow [4] exSysvarOk exNow false
    exConfigTinyMax exUserStale
  exact ⟨by decide, h.2.1 (by decide),
    h.2.2 (by decide) (by decide) (by decide) (by decide) (by decide)
      (by decide) rfl (by decide) (by decide)⟩
